import Mathlib

/-!
Verification of the amalie-engine quiz session engine.

This file gives a shallow embedding of the engine core: the scoring
strategies and scoring engine, the answer tracker, the power-up state
model, the game state helpers (scoreboard ranking, rematch reset,
serialization) and the phase state machine, translated from the
TypeScript sources. JavaScript numbers are modelled as exact rationals,
JavaScript Map objects as insertion-ordered association lists, and
functions that read the wall clock take the current time as an explicit
argument. Theorems below settle the stated properties of the engine.
-/

/-! ## Basic enumerations (types.ts) -/

inductive GamePhase
  | lobby
  | playing
  | revealing
  | finished
deriving DecidableEq, Repr

inductive Difficulty
  | easy
  | medium
  | hard
deriving DecidableEq, Repr

inductive AnswerType
  | multipleChoice
  | text
  | numeric
deriving DecidableEq, Repr

inductive AnswerMode
  | allPlayers
  | firstToAnswer
deriving DecidableEq, Repr

inductive MediaType
  | image
  | audio
  | video
deriving DecidableEq, Repr

inductive MediaShowDuring
  | question
  | answer
  | both
deriving DecidableEq, Repr

inductive PowerupDuration
  | singleQuestion
  | permanent
  | timed
deriving DecidableEq, Repr

inductive PowerupEffect
  | doublePoints
  | removeTwoWrong
  | extraTime
  | skipQuestion
  | stealPoints
  | shield
  | custom
deriving DecidableEq, Repr

/-! ## JavaScript primitives

Math.round rounds half toward positive infinity; a JS Map is modelled
as its insertion-ordered entry list. -/

/-- JavaScript Math.round on an exact rational: floor of x + 1/2. -/
def jsRound (q : ℚ) : ℤ := ⌊q + 1/2⌋

/-- JS Map.set: update the value in place if the key is present, else append. -/
def jsMapSet {α : Type} : List (String × α) → String → α → List (String × α)
  | [], k, v => [(k, v)]
  | (k', v') :: rest, k, v =>
      if k' = k then (k', v) :: rest else (k', v') :: jsMapSet rest k v

/-- JS Map.get as an Option. -/
def jsMapGet {α : Type} (l : List (String × α)) (k : String) : Option α :=
  (l.find? (fun kv => kv.1 == k)).map (fun kv => kv.2)

/-- JS Map.has. -/
def jsMapHas {α : Type} (l : List (String × α)) (k : String) : Bool :=
  l.any (fun kv => kv.1 == k)

/-- JS new Map(entries): entries folded left with Map.set. -/
def jsMapFromList {α : Type} (l : List (String × α)) : List (String × α) :=
  l.foldl (fun m kv => jsMapSet m kv.1 kv.2) []

/-! ## Data model (types.ts) -/

structure QuestionMedia where
  mediaType : MediaType
  url : String
  autoplay : Option Bool
  showDuring : Option MediaShowDuring
deriving DecidableEq, Repr

structure Question where
  id : String
  category : String
  difficulty : Option Difficulty
  text : String
  answerType : AnswerType
  options : Option (List String)
  correctOptionIndex : Option Nat
  correctText : Option String
  acceptedAnswers : Option (List String)
  caseSensitive : Option Bool
  correctNumber : Option ℚ
  lowerBound : Option ℚ
  upperBound : Option ℚ
  media : Option QuestionMedia
  timeLimit : Option ℚ
  points : Option ℚ
deriving DecidableEq, Repr

structure PowerupDefinition where
  id : String
  name : String
  description : Option String
  duration : Option PowerupDuration
  effect : Option PowerupEffect
  value : Option ℚ
deriving DecidableEq, Repr

structure PlayerPowerupState where
  available : List PowerupDefinition
  active : Option PowerupDefinition
  used : List String
deriving DecidableEq, Repr

structure Player where
  id : String
  name : String
  score : ℤ
  streak : ℕ
  rank : Option ℕ
  isConnected : Bool
  joinedAt : ℤ
  powerups : PlayerPowerupState
deriving DecidableEq, Repr

structure PlayerAnswer where
  playerId : String
  questionId : String
  answer : Sum String ℚ
  timestamp : ℤ
  answeredAt : ℤ
  isCorrect : Option Bool
  pointsAwarded : Option ℤ
  rejected : Option Bool
deriving DecidableEq, Repr

structure ScoreboardEntry where
  playerId : String
  playerName : String
  score : ℤ
  rank : ℕ
  streak : ℕ
  lastAnswerCorrect : Option Bool
  pointsThisRound : Option ℤ
deriving DecidableEq, Repr

/-! ## Scoring configuration (types.ts) -/

structure TimeBonusConfig where
  enabled : Bool
  maxBonus : ℚ
  decayPerSecond : ℚ
deriving DecidableEq, Repr

structure StreakBonusConfig where
  enabled : Bool
  multiplierPerStreak : ℚ
  maxMultiplier : ℚ
deriving DecidableEq, Repr

structure DifficultyMultipliers where
  easy : ℚ
  medium : ℚ
  hard : ℚ
deriving DecidableEq, Repr

structure EstimationScoringConfig where
  exactMatchBonus : ℚ
  capAtMax : Bool
  maxScore : ℚ
  minScore : ℚ
deriving DecidableEq, Repr

structure ScoringConfig where
  basePoints : ℚ
  timeBonus : Option TimeBonusConfig
  streakBonus : Option StreakBonusConfig
  difficultyMultipliers : Option DifficultyMultipliers
  estimation : Option EstimationScoringConfig
deriving DecidableEq, Repr

/-! ## Scoring strategies (scoring/strategies.ts) -/

/-- Time bonus based on how quickly the answer was submitted. -/
def calculateTimeBonus (config : TimeBonusConfig) (answeredAtMs : ℚ)
    (timeLimitSeconds : ℚ) : ℚ :=
  if config.enabled = false then 0
  else
    let answeredAtSeconds := answeredAtMs / 1000
    if answeredAtSeconds ≥ timeLimitSeconds then 0
    else
      let decay := answeredAtSeconds * config.decayPerSecond
      let bonus := max 0 (config.maxBonus - decay)
      (jsRound bonus : ℚ)

/-- Streak multiplier. -/
def calculateStreakMultiplier (config : StreakBonusConfig)
    (currentStreak : ℕ) : ℚ :=
  if config.enabled = false then 1
  else
    let bonus := (currentStreak : ℚ) * config.multiplierPerStreak
    1 + min bonus (config.maxMultiplier - 1)

/-- Difficulty multiplier lookup. -/
def getDifficultyMultiplier (multipliers : Option DifficultyMultipliers)
    (difficulty : Option Difficulty) : ℚ :=
  match multipliers, difficulty with
  | some m, some d =>
      match d with
      | .easy => m.easy
      | .medium => m.medium
      | .hard => m.hard
  | _, _ => 1

/-- Estimation score (golf style: lower is better). -/
def calculateEstimationScore (guess correctAnswer lowerBound upperBound : ℚ)
    (config : EstimationScoringConfig) : ℚ :=
  if guess = correctAnswer then config.exactMatchBonus
  else
    let range := upperBound - lowerBound
    if range ≤ 0 then config.maxScore
    else
      let difference := |guess - correctAnswer|
      let normalizedDifference := difference / range
      let scoreRange := config.maxScore - config.minScore
      let score := config.minScore + normalizedDifference * scoreRange * 100
      let capped := if config.capAtMax then min score config.maxScore else score
      (jsRound capped : ℚ)

/-! ## Scoring engine (scoring/engine.ts) -/

structure ScoreCalculationInput where
  question : Question
  answer : PlayerAnswer
  isCorrect : Bool
  currentStreak : ℕ
  timeLimit : Option ℚ
deriving DecidableEq, Repr

structure ScoreBreakdown where
  base : ℚ
  time : ℚ
  streak : ℤ
  difficulty : ℤ
deriving DecidableEq, Repr

structure ScoreCalculationResult where
  totalPoints : ℤ
  basePoints : ℚ
  timeBonus : ℚ
  streakMultiplier : ℚ
  difficultyMultiplier : ℚ
  breakdown : ScoreBreakdown
deriving DecidableEq, Repr

/-- The inline conditional for the time bonus in calculateScore: the JS
guard (config.timeBonus && timeLimit) is truthy only when the bonus
config is present and the time limit is present and nonzero. -/
def engineTimeBonus (config : ScoringConfig) (answeredAtMs : ℤ)
    (timeLimit : Option ℚ) : ℚ :=
  match config.timeBonus, timeLimit with
  | some tb, some tl =>
      if tl = 0 then 0
      else calculateTimeBonus tb (answeredAtMs : ℚ) tl
  | _, _ => 0

/-- The inline conditional for the streak multiplier in calculateScore. -/
def engineStreakMultiplier (config : ScoringConfig) (streak : ℕ) : ℚ :=
  match config.streakBonus with
  | some sb => calculateStreakMultiplier sb streak
  | none => 1

/-- ScoringEngine.calculateScore with the engine configuration passed
explicitly. -/
def calculateScore (config : ScoringConfig)
    (input : ScoreCalculationInput) : ScoreCalculationResult :=
  if input.isCorrect = false then
    { totalPoints := 0, basePoints := 0, timeBonus := 0, streakMultiplier := 1,
      difficultyMultiplier := 1,
      breakdown := { base := 0, time := 0, streak := 0, difficulty := 0 } }
  else
    let basePoints := input.question.points.getD config.basePoints
    let timeBonus :=
      engineTimeBonus config input.answer.answeredAt input.timeLimit
    let streakMultiplier := engineStreakMultiplier config input.currentStreak
    let difficultyMultiplier :=
      getDifficultyMultiplier config.difficultyMultipliers
        input.question.difficulty
    let baseWithBonus := basePoints + timeBonus
    let withStreak := baseWithBonus * streakMultiplier
    let totalPoints := jsRound (withStreak * difficultyMultiplier)
    { totalPoints := totalPoints, basePoints := basePoints,
      timeBonus := timeBonus, streakMultiplier := streakMultiplier,
      difficultyMultiplier := difficultyMultiplier,
      breakdown :=
        { base := basePoints, time := timeBonus,
          streak := jsRound ((streakMultiplier - 1) * baseWithBonus),
          difficulty := jsRound ((difficultyMultiplier - 1) * withStreak) } }

/-! ## Claim-side scoring formulas (transcribed from the specification) -/

/-- Spec formula for the time bonus: max(0, maxBonus minus decayPerSecond
times elapsedSeconds) rounded to nearest integer, zero if the player
answered at or after the time limit, zero if the time bonus is disabled
or no time limit is given (an absent or zero limit means untimed). -/
def specTimeBonus (config : ScoringConfig) (answeredAtMs : ℤ)
    (timeLimit : Option ℚ) : ℚ :=
  match config.timeBonus, timeLimit with
  | some tb, some tl =>
      if tl = 0 then 0
      else if tb.enabled = false then 0
      else if (answeredAtMs : ℚ) / 1000 ≥ tl then 0
      else (jsRound (max 0 (tb.maxBonus - tb.decayPerSecond * ((answeredAtMs : ℚ) / 1000))) : ℚ)
  | _, _ => 0

/-- Spec formula for the streak multiplier: one plus
min(streak times multiplierPerStreak, maxMultiplier minus one), or one if
disabled or unset. -/
def specStreakMultiplier (config : ScoringConfig) (streak : ℕ) : ℚ :=
  match config.streakBonus with
  | some sb =>
      if sb.enabled then 1 + min ((streak : ℚ) * sb.multiplierPerStreak) (sb.maxMultiplier - 1)
      else 1
  | none => 1

/-- Spec formula for the difficulty multiplier: the configured
per-difficulty factor, or one if unset. -/
def specDifficultyMultiplier (config : ScoringConfig)
    (difficulty : Option Difficulty) : ℚ :=
  match config.difficultyMultipliers, difficulty with
  | some m, some .easy => m.easy
  | some m, some .medium => m.medium
  | some m, some .hard => m.hard
  | _, _ => 1

/-- Spec formula for the total score of a standard answer. -/
def specTotalScore (config : ScoringConfig) (input : ScoreCalculationInput) : ℤ :=
  if input.isCorrect = false then 0
  else
    jsRound ((input.question.points.getD config.basePoints
        + specTimeBonus config input.answer.answeredAt input.timeLimit)
      * specStreakMultiplier config input.currentStreak
      * specDifficultyMultiplier config input.question.difficulty)

/-- Spec formula for the estimation score, transcribed from the claim:
exact match short-circuits to the configured bonus; a collapsed bound
range returns the worst score; otherwise the normalized difference is
scaled by (maxScore minus minScore) times 100, capped at maxScore when
configured, and rounded. -/
def specEstimationScore (guess target lower upper : ℚ)
    (config : EstimationScoringConfig) : ℚ :=
  if guess = target then config.exactMatchBonus
  else if upper - lower ≤ 0 then config.maxScore
  else
    let raw := config.minScore + (|guess - target| / (upper - lower)) * (config.maxScore - config.minScore) * 100
    if config.capAtMax then (jsRound (min raw config.maxScore) : ℚ)
    else (jsRound raw : ℚ)

/-- Default estimation config from createScoringEngine. -/
def defaultEstimationConfig : EstimationScoringConfig :=
  { exactMatchBonus := -10, capAtMax := true, maxScore := 25, minScore := 1 }

/-- Default streak config from createScoringEngine. -/
def defaultStreakConfig : StreakBonusConfig :=
  { enabled := true, multiplierPerStreak := 1/10, maxMultiplier := 2 }

/-! ## Scoring theorems -/

lemma engineTimeBonus_eq_spec (config : ScoringConfig) (answeredAtMs : ℤ)
    (timeLimit : Option ℚ) :
    engineTimeBonus config answeredAtMs timeLimit
      = specTimeBonus config answeredAtMs timeLimit := by
  rcases htb : config.timeBonus with _ | tb <;>
    rcases htl : timeLimit with _ | tl <;>
      simp [engineTimeBonus, specTimeBonus, htb, htl, calculateTimeBonus]
  split_ifs with h0 hen hge <;> try rfl
  have : answeredAtMs / 1000 * tb.decayPerSecond
      = tb.decayPerSecond * ((answeredAtMs : ℚ) / 1000) := by ring
  rw [this]

lemma engineStreakMultiplier_eq_spec (config : ScoringConfig) (streak : ℕ) :
    engineStreakMultiplier config streak = specStreakMultiplier config streak := by
  rcases hsb : config.streakBonus with _ | sb <;>
    simp [engineStreakMultiplier, specStreakMultiplier, hsb,
      calculateStreakMultiplier]
  cases h : sb.enabled <;> simp [h]

lemma getDifficultyMultiplier_eq_spec (config : ScoringConfig)
    (difficulty : Option Difficulty) :
    getDifficultyMultiplier config.difficultyMultipliers difficulty
      = specDifficultyMultiplier config difficulty := by
  rcases hm : config.difficultyMultipliers with _ | m
  · rcases hd : difficulty with _ | d <;>
      simp [getDifficultyMultiplier, specDifficultyMultiplier, hm, hd]
  · rcases hd : difficulty with _ | d
    · simp [getDifficultyMultiplier, specDifficultyMultiplier, hm, hd]
    · cases d <;>
        simp [getDifficultyMultiplier, specDifficultyMultiplier, hm, hd]

/-- C2: calculateScore returns 0 for a wrong answer, and for a correct
answer returns round((base + timeBonus) * streakMultiplier *
difficultyMultiplier) with base the per-question override or the
configured default, timeBonus = max(0, maxBonus - decayPerSecond *
elapsedSeconds) rounded (0 at or after the time limit, 0 when disabled
or when no time limit is given), streakMultiplier = 1 + min(streak *
multiplierPerStreak, maxMultiplier - 1) (1 when disabled), and
difficultyMultiplier the configured per-difficulty factor or 1 when
unset; with rate 0.1 and cap 2 the streak multiplier is 1.0, 1.5 and
2.0 at streaks 0, 5 and 20. -/
theorem calculateScore_matches_spec (config : ScoringConfig)
    (input : ScoreCalculationInput) :
    (calculateScore config input).totalPoints = specTotalScore config input ∧
    calculateStreakMultiplier defaultStreakConfig 0 = 1 ∧
    calculateStreakMultiplier defaultStreakConfig 5 = 3/2 ∧
    calculateStreakMultiplier defaultStreakConfig 20 = 2 := by
  refine ⟨?_, ?_, ?_, ?_⟩
  · cases hic : input.isCorrect
    · simp [calculateScore, specTotalScore, hic]
    · simp only [calculateScore, specTotalScore, hic]
      rw [engineTimeBonus_eq_spec, engineStreakMultiplier_eq_spec,
        getDifficultyMultiplier_eq_spec]
      simp
  · norm_num [calculateStreakMultiplier, defaultStreakConfig]
  · norm_num [calculateStreakMultiplier, defaultStreakConfig]
  · norm_num [calculateStreakMultiplier, defaultStreakConfig]

/-- C3: calculateEstimationScore returns the configured exactMatchBonus
on an exact match, the worst score maxScore when the bound range is not
positive, and otherwise round(minScore + normalizedDifference *
(maxScore - minScore) * 100) capped at maxScore when capAtMax is set;
with target 1945, bounds 1900 and 2000 and the default config
(exactMatchBonus -10, minScore 1, maxScore 25, capAtMax true) a guess
of 1945 scores -10 and a guess of 1995 normalizes to 1/2 and is capped
to 25. -/
theorem calculateEstimationScore_matches_spec
    (guess target lower upper : ℚ) (config : EstimationScoringConfig) :
    calculateEstimationScore guess target lower upper config
      = specEstimationScore guess target lower upper config ∧
    calculateEstimationScore 1945 1945 1900 2000 defaultEstimationConfig = -10 ∧
    calculateEstimationScore 1995 1945 1900 2000 defaultEstimationConfig = 25 := by
  refine ⟨?_, ?_, ?_⟩
  · rw [calculateEstimationScore, specEstimationScore]
    dsimp only
    split_ifs <;> rfl
  · norm_num [calculateEstimationScore, defaultEstimationConfig]
  · norm_num [calculateEstimationScore, defaultEstimationConfig, jsRound]

/-! ## Answer tracker (core/answer-tracker.ts) -/

inductive RejectReason
  | late
  | alreadyAnswered
  | invalid
deriving DecidableEq, Repr

structure AnswerTrackerConfig where
  answerMode : AnswerMode
  allowLateAnswers : Bool
  timeLimit : Option ℚ
deriving DecidableEq, Repr

structure AnswerTrackerState where
  config : AnswerTrackerConfig
  questionStartTime : ℤ
  answers : List (String × PlayerAnswer)
  answerOrder : List String
deriving DecidableEq, Repr

structure AnswerSubmission where
  playerId : String
  questionId : String
  answer : Sum String ℚ
  submittedAt : ℤ
deriving DecidableEq, Repr

structure AnswerResult where
  accepted : Bool
  rejected : Bool
  rejectReason : Option RejectReason
  playerAnswer : Option PlayerAnswer
  answerOrder : Option ℕ
deriving DecidableEq, Repr

/-- AnswerTracker.startQuestion: reset the answer set and ordering. -/
def startQuestion (st : AnswerTrackerState) (startTime : ℤ) : AnswerTrackerState :=
  { st with questionStartTime := startTime, answers := [], answerOrder := [] }

/-- The truthiness guard of the late check: a time limit is configured
(present and nonzero) and late answers are disallowed. -/
def lateCheckEnabled (config : AnswerTrackerConfig) : Bool :=
  match config.timeLimit with
  | some tl => decide (tl ≠ 0) && !config.allowLateAnswers
  | none => false

/-- The late rejection condition of submitAnswer: the late check is
enabled and the elapsed milliseconds strictly exceed the time limit
converted to milliseconds. -/
def isLateSubmission (config : AnswerTrackerConfig) (answeredAt : ℤ) : Bool :=
  lateCheckEnabled config
    && decide ((answeredAt : ℚ) > (config.timeLimit.getD 0) * 1000)

/-- AnswerTracker.submitAnswer, returning the result and the updated
tracker state. -/
def submitAnswer (st : AnswerTrackerState) (sub : AnswerSubmission) :
    AnswerResult × AnswerTrackerState :=
  if jsMapHas st.answers sub.playerId then
    ({ accepted := false, rejected := true,
       rejectReason := some .alreadyAnswered,
       playerAnswer := none, answerOrder := none }, st)
  else
    let answeredAt := sub.submittedAt - st.questionStartTime
    if isLateSubmission st.config answeredAt then
      ({ accepted := false, rejected := true, rejectReason := some .late,
         playerAnswer := none, answerOrder := none }, st)
    else
      let answerOrder := st.answerOrder ++ [sub.playerId]
      let playerAnswer : PlayerAnswer :=
        { playerId := sub.playerId, questionId := sub.questionId,
          answer := sub.answer, timestamp := sub.submittedAt,
          answeredAt := answeredAt, isCorrect := none,
          pointsAwarded := none, rejected := none }
      ({ accepted := true, rejected := false, rejectReason := none,
         playerAnswer := some playerAnswer,
         answerOrder := some answerOrder.length },
       { st with answers := jsMapSet st.answers sub.playerId playerAnswer,
                 answerOrder := answerOrder })


/-! ## Answer tracker lemmas and theorems -/

lemma jsMapHas_iff {α : Type} (l : List (String × α)) (k : String) :
    jsMapHas l k = true ↔ k ∈ l.map Prod.fst := by
  induction l with
  | nil => simp [jsMapHas]
  | cons hd t ih =>
      simp only [jsMapHas, List.any_cons, Bool.or_eq_true, beq_iff_eq,
        List.map_cons, List.mem_cons] at *
      rw [ih]
      constructor
      · rintro (h | h)
        · exact Or.inl h.symm
        · exact Or.inr h
      · rintro (h | h)
        · exact Or.inl h.symm
        · exact Or.inr h

lemma jsMapSet_of_not_has {α : Type} {l : List (String × α)} {k : String}
    (v : α) (h : jsMapHas l k = false) : jsMapSet l k v = l ++ [(k, v)] := by
  induction l with
  | nil => simp [jsMapSet]
  | cons hd t ih =>
      obtain ⟨k', v'⟩ := hd
      simp only [jsMapHas, List.any_cons, Bool.or_eq_false_iff,
        beq_eq_false_iff_ne, ne_eq] at h
      simp only [jsMapSet, if_neg h.1, List.cons_append, List.cons.injEq,
        true_and]
      exact ih h.2

lemma jsMapHas_jsMapSet_self {α : Type} (l : List (String × α)) (k : String)
    (v : α) : jsMapHas (jsMapSet l k v) k = true := by
  induction l with
  | nil => simp [jsMapSet, jsMapHas]
  | cons hd t ih =>
      obtain ⟨k', v'⟩ := hd
      by_cases hk : k' = k
      · subst hk
        simp [jsMapSet, jsMapHas]
      · simp only [jsMapSet, if_neg hk, jsMapHas, List.any_cons,
          Bool.or_eq_true]
        exact Or.inr ih

/-- The already-answered rejection result record. -/
def alreadyAnsweredResult : AnswerResult :=
  { accepted := false, rejected := true,
    rejectReason := some .alreadyAnswered,
    playerAnswer := none, answerOrder := none }

lemma submitAnswer_of_has (st : AnswerTrackerState) (sub : AnswerSubmission)
    (h : jsMapHas st.answers sub.playerId = true) :
    submitAnswer st sub = (alreadyAnsweredResult, st) := by
  simp [submitAnswer, h, alreadyAnsweredResult]

/-- C4: a submitAnswer call by a player who already has a recorded
answer returns the already-answered rejection and leaves the tracker
state (answer map and ordering list) unchanged; after any accepted
submission the same player is rejected this way, and the answer map
keys stay duplicate free, so each player has at most one recorded
answer per round. -/
theorem submitAnswer_duplicate_rejected (st : AnswerTrackerState)
    (sub subNext : AnswerSubmission)
    (hsame : subNext.playerId = sub.playerId) :
    (jsMapHas st.answers sub.playerId = true →
      submitAnswer st sub = (alreadyAnsweredResult, st)) ∧
    ((submitAnswer st sub).1.accepted = true →
      submitAnswer (submitAnswer st sub).2 subNext
        = (alreadyAnsweredResult, (submitAnswer st sub).2)) ∧
    ((st.answers.map Prod.fst).Nodup →
      ((submitAnswer st sub).2.answers.map Prod.fst).Nodup) ∧
    ((startQuestion st 0).answers.map Prod.fst).Nodup := by
  refine ⟨?_, ?_, ?_, by simp [startQuestion]⟩
  · exact submitAnswer_of_has st sub
  · intro hacc
    by_cases h1 : jsMapHas st.answers sub.playerId = true
    · simp [submitAnswer, h1] at hacc
    · by_cases h2 : isLateSubmission st.config
          (sub.submittedAt - st.questionStartTime) = true
      · simp [submitAnswer, h1, h2] at hacc
      · have hstate : (submitAnswer st sub).2.answers
            = jsMapSet st.answers sub.playerId
                { playerId := sub.playerId, questionId := sub.questionId,
                  answer := sub.answer, timestamp := sub.submittedAt,
                  answeredAt := sub.submittedAt - st.questionStartTime,
                  isCorrect := none, pointsAwarded := none,
                  rejected := none } := by
          simp [submitAnswer, h1, h2]
        have hhas : jsMapHas (submitAnswer st sub).2.answers subNext.playerId
            = true := by
          rw [hstate, hsame]
          exact jsMapHas_jsMapSet_self _ _ _
        exact submitAnswer_of_has _ _ hhas
  · intro hnd
    by_cases h1 : jsMapHas st.answers sub.playerId = true
    · simpa [submitAnswer, h1] using hnd
    · by_cases h2 : isLateSubmission st.config
          (sub.submittedAt - st.questionStartTime) = true
      · simpa [submitAnswer, h1, h2] using hnd
      · have h1f : jsMapHas st.answers sub.playerId = false := by
          simpa using h1
        have hstate : (submitAnswer st sub).2.answers
            = jsMapSet st.answers sub.playerId
                { playerId := sub.playerId, questionId := sub.questionId,
                  answer := sub.answer, timestamp := sub.submittedAt,
                  answeredAt := sub.submittedAt - st.questionStartTime,
                  isCorrect := none, pointsAwarded := none,
                  rejected := none } := by
          simp [submitAnswer, h1, h2]
        rw [hstate, jsMapSet_of_not_has _ h1f]
        simp only [List.map_append, List.map_cons, List.map_nil]
        rw [List.nodup_append]
        refine ⟨hnd, List.nodup_singleton _, ?_⟩
        intro a ha hb
        simp only [List.mem_singleton] at hb
        subst hb
        have hmem := (jsMapHas_iff st.answers sub.playerId).2 ha
        rw [hmem] at h1f
        cases h1f

/-- A concrete tracker state holding one recorded answer, for witnesses. -/
def sampleTrackerState : AnswerTrackerState :=
  { config := { answerMode := .allPlayers, allowLateAnswers := false,
                timeLimit := none },
    questionStartTime := 0,
    answers := [("p1",
      { playerId := "p1", questionId := "q1", answer := Sum.inl "x",
        timestamp := 5, answeredAt := 5, isCorrect := none,
        pointsAwarded := none, rejected := none })],
    answerOrder := ["p1"] }

/-- A concrete repeated submission by the same player, for witnesses. -/
def sampleResubmission : AnswerSubmission :=
  { playerId := "p1", questionId := "q1", answer := Sum.inl "y",
    submittedAt := 9 }

/-- Witness for C4 at a concrete tracker state: a second submission by
player p1 is rejected as already answered and changes nothing. -/
theorem submitAnswer_duplicate_rejected_witness :
    submitAnswer sampleTrackerState sampleResubmission
      = (alreadyAnsweredResult, sampleTrackerState) :=
  (submitAnswer_duplicate_rejected sampleTrackerState sampleResubmission
    sampleResubmission rfl).1 (by decide)

/-- A tracker configured with a 20 second limit, late answers
disallowed, question started at time 0, no answers yet. -/
def lateBoundaryTracker : AnswerTrackerState :=
  { config := { answerMode := .allPlayers, allowLateAnswers := false,
                timeLimit := some 20 },
    questionStartTime := 0, answers := [], answerOrder := [] }

/-- A submission arriving exactly at the 20 second mark. -/
def lateBoundarySubmission : AnswerSubmission :=
  { playerId := "p1", questionId := "q1", answer := Sum.inl "a",
    submittedAt := 20000 }

/-- C5 counterexample: with timeLimit 20s and late answers disallowed, a
first submission whose elapsed time is exactly 20000 ms is accepted,
not rejected as late, because the source compares with a strict
inequality (answeredAt > timeLimit * 1000). -/
theorem submitAnswer_late_boundary_accepted :
    (submitAnswer lateBoundaryTracker lateBoundarySubmission).1.accepted = true ∧
    (submitAnswer lateBoundaryTracker lateBoundarySubmission).1.rejectReason = none := by
  have hguard : isLateSubmission lateBoundaryTracker.config
      (lateBoundarySubmission.submittedAt
        - lateBoundaryTracker.questionStartTime) = false := by
    simp only [isLateSubmission, lateCheckEnabled, lateBoundaryTracker,
      lateBoundarySubmission]
    norm_num
  have hhas : jsMapHas lateBoundaryTracker.answers
      lateBoundarySubmission.playerId = false := by decide
  refine ⟨?_, ?_⟩ <;> simp [submitAnswer, hhas, hguard]

lemma isLateSubmission_iff (config : AnswerTrackerConfig) (e : ℤ) :
    isLateSubmission config e = true ↔
      ∃ tl : ℚ, config.timeLimit = some tl ∧ tl ≠ 0 ∧
        config.allowLateAnswers = false ∧ (e : ℚ) > tl * 1000 := by
  rcases h : config.timeLimit with _ | tl
  · simp [isLateSubmission, lateCheckEnabled, h]
  · simp only [isLateSubmission, lateCheckEnabled, h, Option.getD_some,
      Bool.and_eq_true, decide_eq_true_eq, Bool.not_eq_true',
      Option.some.injEq]
    constructor
    · rintro ⟨⟨hne, hallow⟩, hgt⟩
      exact ⟨tl, rfl, hne, hallow, hgt⟩
    · rintro ⟨tl', heq, hne, hallow, hgt⟩
      subst heq
      exact ⟨⟨hne, hallow⟩, hgt⟩

/-- C5 amended: for a first submission, submitAnswer rejects with late
exactly when a nonzero time limit is configured, late answers are
disallowed, and the elapsed milliseconds STRICTLY exceed the limit in
milliseconds (a submission exactly at the limit is accepted); a late
rejection leaves the tracker state unchanged. -/
theorem submitAnswer_late_strict (st : AnswerTrackerState)
    (sub : AnswerSubmission)
    (hfirst : jsMapHas st.answers sub.playerId = false) :
    ((submitAnswer st sub).1.rejectReason = some .late ↔
      (∃ tl : ℚ, st.config.timeLimit = some tl ∧ tl ≠ 0 ∧
        st.config.allowLateAnswers = false ∧
        ((sub.submittedAt - st.questionStartTime : ℤ) : ℚ) > tl * 1000)) ∧
    ((submitAnswer st sub).1.rejectReason = some .late →
      (submitAnswer st sub).2 = st) := by
  have hchar := isLateSubmission_iff st.config
    (sub.submittedAt - st.questionStartTime)
  by_cases hg : isLateSubmission st.config
      (sub.submittedAt - st.questionStartTime) = true
  · refine ⟨?_, ?_⟩
    · rw [← hchar]
      simp [submitAnswer, hfirst, hg]
    · intro _
      simp [submitAnswer, hfirst, hg]
  · refine ⟨?_, ?_⟩
    · rw [← hchar]
      simp [submitAnswer, hfirst, hg]
    · intro hlate
      simp [submitAnswer, hfirst, hg] at hlate

/-- Witness for C5 (amended) at a concrete input: a submission 25
seconds after the start against a 20 second limit. -/
theorem submitAnswer_late_strict_witness :
    ((submitAnswer lateBoundaryTracker
        { playerId := "p1", questionId := "q1", answer := Sum.inl "a",
          submittedAt := 25000 }).1.rejectReason = some .late ↔
      (∃ tl : ℚ,
        lateBoundaryTracker.config.timeLimit = some tl ∧ tl ≠ 0 ∧
        lateBoundaryTracker.config.allowLateAnswers = false ∧
        (((25000 : ℤ) - lateBoundaryTracker.questionStartTime : ℤ) : ℚ)
          > tl * 1000)) :=
  (submitAnswer_late_strict lateBoundaryTracker
    { playerId := "p1", questionId := "q1", answer := Sum.inl "a",
      submittedAt := 25000 } (by decide)).1

/-! ## Power-up state management (powerups/manager.ts) -/

/-- Initial power-up state for a player (empty available list form used
by createPlayer). -/
def createInitialPowerupState : PlayerPowerupState :=
  { available := [], active := none, used := [] }

/-- Activate a power-up: find the first available definition with the
requested id, fail when absent or when another power-up is active,
otherwise remove it from the available list and set it active. -/
def activatePowerup (state : PlayerPowerupState) (powerupId : String) :
    Option PlayerPowerupState :=
  match state.available.findIdx? (fun p => p.id == powerupId) with
  | none => none
  | some powerupIndex =>
      if state.active.isSome then none
      else
        match state.available[powerupIndex]? with
        | none => none
        | some powerup =>
            some { available := state.available.eraseIdx powerupIndex,
                   active := some powerup,
                   used := state.used }

/-- Consume the active power-up after the question ends. -/
def consumeActivePowerup (state : PlayerPowerupState) : PlayerPowerupState :=
  match state.active with
  | none => state
  | some active =>
      { available := state.available, active := none,
        used := state.used ++ [active.id] }

/-- PowerupManager.activateForPlayer over the manager player-state map:
the map is unchanged when the lookup or the activation fails. -/
def activateForPlayer (playerStates : List (String × PlayerPowerupState))
    (playerId powerupId : String) :
    List (String × PlayerPowerupState) × Bool :=
  match jsMapGet playerStates playerId with
  | none => (playerStates, false)
  | some state =>
      match activatePowerup state powerupId with
      | none => (playerStates, false)
      | some newState => (jsMapSet playerStates playerId newState, true)

/-! ## Power-up theorems -/

/-- C8: activation fails (returning none, so the caller keeps the state
unchanged) when the id is not available or a power-up is already
active; a successful activation starts from a state with nothing
active, moves exactly the first available power-up with that id from
the available list to the active slot and leaves the used list alone;
consumeActive is a no-op with nothing active and otherwise moves the
active id to the used list and clears the active slot; and the manager
map is unchanged on failed activation. -/
theorem powerup_single_active (s : PlayerPowerupState) (pid : String) :
    ((∀ p ∈ s.available, p.id ≠ pid) → activatePowerup s pid = none) ∧
    (s.active ≠ none → activatePowerup s pid = none) ∧
    (∀ s', activatePowerup s pid = some s' →
      s.active = none ∧ s'.used = s.used ∧
      ∃ i powerup, s.available[i]? = some powerup ∧ powerup.id = pid ∧
        s'.active = some powerup ∧
        s'.available = s.available.eraseIdx i) ∧
    (s.active = none → consumeActivePowerup s = s) ∧
    (∀ a, s.active = some a →
      consumeActivePowerup s
        = { available := s.available, active := none,
            used := s.used ++ [a.id] }) ∧
    (∀ (m : List (String × PlayerPowerupState)) (playerId : String),
      jsMapGet m playerId = some s → activatePowerup s pid = none →
        activateForPlayer m playerId pid = (m, false)) := by
  refine ⟨?_, ?_, ?_, ?_, ?_, ?_⟩
  · intro h
    have hf : s.available.findIdx? (fun p => p.id == pid) = none :=
      List.findIdx?_eq_none_iff.2 (fun x hx => by
        simpa [beq_eq_false_iff_ne] using h x hx)
    simp [activatePowerup, hf]
  · intro h
    have hs : s.active.isSome = true := Option.ne_none_iff_isSome.1 h
    cases hf : s.available.findIdx? (fun p => p.id == pid) with
    | none => simp [activatePowerup, hf]
    | some i => simp [activatePowerup, hf, hs]
  · intro s' h
    simp only [activatePowerup] at h
    cases hf : s.available.findIdx? (fun p => p.id == pid) with
    | none => simp [hf] at h
    | some i =>
        rw [hf] at h
        by_cases hact : s.active.isSome = true
        · simp [hact] at h
        · have hnone : s.active = none := Option.not_isSome_iff_eq_none.1 hact
          cases hg : s.available[i]? with
          | none => simp [hact, hg] at h
          | some powerup =>
              simp only [hact, hg, if_false, Bool.false_eq_true,
                Option.some.injEq] at h
              have hidx := List.findIdx?_eq_some_iff_findIdx_eq.1 hf
              have hw : s.available[s.available.findIdx
                  (fun q => q.id == pid)]? = some powerup := by
                rw [hidx.2]
                exact hg
              have hp := List.findIdx_of_getElem?_eq_some hw
              simp only [beq_iff_eq] at hp
              refine ⟨hnone, ?_, i, powerup, hg, hp, ?_, ?_⟩
              · rw [← h]
              · rw [← h]
              · rw [← h]
  · intro h
    simp [consumeActivePowerup, h]
  · intro a h
    simp [consumeActivePowerup, h]
  · intro m playerId hget hnone
    simp [activateForPlayer, hget, hnone]

/-- A built-in double points power-up definition. -/
def doublePointsPowerup : PowerupDefinition :=
  { id := "double-points", name := "Double Points",
    description := some "Double your score for the next correct answer",
    duration := some .singleQuestion, effect := some .doublePoints,
    value := some 2 }

/-- A built-in shield power-up definition. -/
def shieldPowerup : PowerupDefinition :=
  { id := "shield", name := "Shield",
    description := some "Protect your streak if you answer wrong",
    duration := some .singleQuestion, effect := some .shield,
    value := none }

/-- Witness for C8 at a concrete state: with the shield active,
activating the available double points power-up fails, and consuming
with nothing active is a no-op. -/
theorem powerup_single_active_witness :
    activatePowerup
        { available := [doublePointsPowerup], active := some shieldPowerup,
          used := [] } "double-points" = none ∧
    consumeActivePowerup
        { available := [doublePointsPowerup], active := none, used := [] }
      = { available := [doublePointsPowerup], active := none, used := [] } :=
  ⟨(powerup_single_active
      { available := [doublePointsPowerup], active := some shieldPowerup,
        used := [] } "double-points").2.1 (by decide),
   (powerup_single_active
      { available := [doublePointsPowerup], active := none, used := [] }
      "double-points").2.2.2.1 rfl⟩

/-! ## Game configuration and state (types.ts, core/game-state.ts) -/

structure QuizGameConfig where
  roomCode : Option String
  scoring : ScoringConfig
  powerups : Option (List PowerupDefinition)
  questionTimeLimit : Option ℚ
  showAnswerAfterQuestion : Option Bool
  autoAdvance : Option Bool
  answerMode : Option AnswerMode
  allowLateAnswers : Option Bool
  autoAdvanceOnAllAnswered : Option Bool
  shuffleQuestions : Option Bool
  questionsPerGame : Option ℕ
deriving DecidableEq, Repr

structure CurrentQuestionState where
  question : Question
  questionIndex : ℕ
  totalQuestions : ℕ
  startedAt : ℤ
  timeRemaining : Option ℚ
  answers : List (String × PlayerAnswer)
deriving DecidableEq, Repr

structure GameState where
  phase : GamePhase
  roomCode : String
  config : QuizGameConfig
  players : List (String × Player)
  currentQuestion : Option CurrentQuestionState
  questionHistory : List Question
  startedAt : Option ℤ
  finishedAt : Option ℤ
deriving DecidableEq, Repr

/-- Initial game state for a room. -/
def createInitialGameState (roomCode : String) (config : QuizGameConfig) :
    GameState :=
  { phase := .lobby, roomCode := roomCode, config := config, players := [],
    currentQuestion := none, questionHistory := [], startedAt := none,
    finishedAt := none }

/-- New player record; the join timestamp is passed explicitly. -/
def createPlayer (id name : String) (now : ℤ) : Player :=
  { id := id, name := name, score := 0, streak := 0, rank := none,
    isConnected := true, joinedAt := now,
    powerups := createInitialPowerupState }

/-- Fresh round state for a question; the start timestamp is passed
explicitly. -/
def createCurrentQuestionState (question : Question)
    (questionIndex totalQuestions : ℕ) (now : ℤ) : CurrentQuestionState :=
  { question := question, questionIndex := questionIndex,
    totalQuestions := totalQuestions, startedAt := now,
    timeRemaining := none, answers := [] }

/-- One scoreboard entry before rank assignment. -/
def mkScoreboardEntry (currentAnswers : Option (List (String × PlayerAnswer)))
    (player : Player) : ScoreboardEntry :=
  let answer := currentAnswers.bind (fun m => jsMapGet m player.id)
  { playerId := player.id, playerName := player.name, score := player.score,
    rank := 0, streak := player.streak,
    lastAnswerCorrect := answer.bind (fun a => a.isCorrect),
    pointsThisRound := answer.bind (fun a => a.pointsAwarded) }

/-- The sort comparator (a, b) => b.score - a.score as a relation:
descending by score. -/
def scoreDescRel : ScoreboardEntry → ScoreboardEntry → Prop :=
  fun a b => b.score ≤ a.score

instance : DecidableRel scoreDescRel :=
  fun a b => inferInstanceAs (Decidable (b.score ≤ a.score))

instance : IsTotal ScoreboardEntry scoreDescRel :=
  ⟨fun a b => le_total b.score a.score⟩

instance : IsTrans ScoreboardEntry scoreDescRel :=
  ⟨fun _ _ _ h1 h2 => le_trans h2 h1⟩

/-- The rank assignment loop of calculateScoreboard: walk the sorted
entries with the running index, previous score and current rank. -/
def assignRanksAux : ℕ → ℤ → ℕ → List ScoreboardEntry → List ScoreboardEntry
  | _, _, _, [] => []
  | i, prev, r, e :: rest =>
      let newRank := if 0 < i ∧ e.score < prev then i + 1 else r
      { e with rank := newRank } :: assignRanksAux (i + 1) e.score newRank rest

/-- calculateScoreboard: map players to entries, sort by descending
score (stable, as the JS engine sort), then assign competition ranks. -/
def calculateScoreboard (players : List (String × Player))
    (currentAnswers : Option (List (String × PlayerAnswer))) :
    List ScoreboardEntry :=
  let entries := (players.map Prod.snd).map (mkScoreboardEntry currentAnswers)
  assignRanksAux 0 0 1 (List.insertionSort scoreDescRel entries)

/-! ## Scoreboard ranking lemmas -/

lemma assignRanksAux_map_score (rest : List ScoreboardEntry) :
    ∀ (i : ℕ) (prev : ℤ) (r : ℕ),
      (assignRanksAux i prev r rest).map (fun e => e.score)
        = rest.map (fun e => e.score) := by
  induction rest with
  | nil => intro i prev r; rfl
  | cons c rest ih =>
      intro i prev r
      simp only [assignRanksAux, List.map_cons]
      rw [ih]

lemma assignRanksAux_rank_eq :
    ∀ (rest : List ScoreboardEntry), ∀ (PS : List ScoreboardEntry)
      (prev : ℤ) (r : ℕ),
      List.Pairwise scoreDescRel (PS ++ rest) →
      (∀ x ∈ PS, prev ≤ x.score) →
      (PS ≠ [] → ∀ x ∈ rest, x.score ≤ prev) →
      (PS ≠ [] →
        r = 1 + (PS ++ rest).countP (fun x => decide (prev < x.score))) →
      (PS = [] → r = 1) →
      ∀ e ∈ assignRanksAux PS.length prev r rest,
        e.rank = 1 + (PS ++ rest).countP (fun x => decide (e.score < x.score))
  | [] => by
      intro PS prev r _ _ _ _ _ e he
      simp [assignRanksAux] at he
  | c :: rest => by
      intro PS prev r hpw hprev hlast hr hr0 e he
      have hcrest : ∀ x ∈ rest, x.score ≤ c.score := by
        have h1 := (List.pairwise_append.1 hpw).2.1
        have h2 := (List.pairwise_cons.1 h1).1
        intro x hx
        exact h2 x hx
      have hkey : (if 0 < PS.length ∧ c.score < prev then PS.length + 1 else r)
          = 1 + (PS ++ c :: rest).countP (fun x => decide (c.score < x.score)) := by
        rcases eq_or_ne PS [] with hPS | hPS
        · subst hPS
          simp only [List.length_nil, lt_irrefl, false_and, if_false,
            List.nil_append]
          rw [hr0 rfl]
          have hz : (c :: rest).countP (fun x => decide (c.score < x.score))
              = 0 := by
            rw [List.countP_eq_zero]
            intro a ha
            simp only [List.mem_cons] at ha
            rcases ha with rfl | ha
            · simp
            · simp only [decide_eq_true_eq]
              exact not_lt.2 (hcrest a ha)
          rw [hz]
        · have hpos : 0 < PS.length := List.length_pos.2 hPS
          by_cases hlt : c.score < prev
          · simp only [hpos, hlt, and_true, true_and, if_true, if_pos]
            rw [List.countP_append, List.countP_cons]
            have hPScount : PS.countP (fun x => decide (c.score < x.score))
                = PS.length := by
              rw [List.countP_eq_length]
              intro a ha
              simp only [decide_eq_true_eq]
              exact lt_of_lt_of_le hlt (hprev a ha)
            have hrest : rest.countP (fun x => decide (c.score < x.score))
                = 0 := by
              rw [List.countP_eq_zero]
              intro a ha
              simp only [decide_eq_true_eq]
              exact not_lt.2 (hcrest a ha)
            simp [hPScount, hrest, Nat.add_comm]
          · have hle : c.score ≤ prev := hlast hPS c (List.mem_cons_self c rest)
            have heq : c.score = prev := le_antisymm hle (not_lt.1 hlt)
            simp only [hlt, and_false, if_false]
            rw [hr hPS, heq]
      simp only [assignRanksAux, List.mem_cons] at he
      rcases he with rfl | he
      · simpa using hkey
      · have hlen : PS.length + 1 = (PS ++ [c]).length := by
          simp
        nth_rewrite 1 [hlen] at he
        have hres := assignRanksAux_rank_eq rest (PS ++ [c]) c.score
          (if 0 < PS.length ∧ c.score < prev then PS.length + 1 else r)
          (by rw [List.append_assoc, List.singleton_append]; exact hpw)
          (by
            intro x hx
            rcases List.mem_append.1 hx with hx | hx
            · have hne : PS ≠ [] := List.ne_nil_of_mem hx
              have hle : c.score ≤ prev :=
                hlast hne c (List.mem_cons_self c rest)
              exact le_trans hle (hprev x hx)
            · simp only [List.mem_singleton] at hx
              subst hx
              exact le_refl _)
          (fun _ => hcrest)
          (fun _ => by
            rw [List.append_assoc, List.singleton_append]
            exact hkey)
          (by
            intro habs
            exact absurd habs (by simp))
          e he
        rw [List.append_assoc, List.singleton_append] at hres
        exact hres

/-- C6: the scoreboard is sorted by descending score, and every entry
carries rank equal to one plus the number of players with a strictly
higher score, so tied scores share a rank, the next distinct score
continues the sequence, and the ranks depend on the scores alone. -/
theorem calculateScoreboard_dense_rank (players : List (String × Player))
    (currentAnswers : Option (List (String × PlayerAnswer))) :
    ((calculateScoreboard players currentAnswers).map
        (fun e => e.score)).Pairwise (· ≥ ·) ∧
    ∀ e ∈ calculateScoreboard players currentAnswers,
      e.rank = 1 + (players.map Prod.snd).countP
        (fun p => decide (e.score < p.score)) := by
  have hsorted : List.Pairwise scoreDescRel
      (List.insertionSort scoreDescRel
        ((players.map Prod.snd).map (mkScoreboardEntry currentAnswers))) :=
    List.sorted_insertionSort scoreDescRel _
  constructor
  · show ((assignRanksAux 0 0 1
      (List.insertionSort scoreDescRel
        ((players.map Prod.snd).map
          (mkScoreboardEntry currentAnswers)))).map
        (fun e => e.score)).Pairwise (· ≥ ·)
    rw [assignRanksAux_map_score]
    rw [List.pairwise_map]
    exact hsorted
  · intro e he
    have he2 : e ∈ assignRanksAux 0 0 1
        (List.insertionSort scoreDescRel
          ((players.map Prod.snd).map (mkScoreboardEntry currentAnswers))) :=
      he
    have hvac1 : ∀ x ∈ ([] : List ScoreboardEntry), (0 : ℤ) ≤ x.score := by
      intro x hx
      simp at hx
    have hres := assignRanksAux_rank_eq
      (List.insertionSort scoreDescRel
        ((players.map Prod.snd).map (mkScoreboardEntry currentAnswers)))
      [] 0 1 hsorted hvac1
      (fun h => absurd rfl h)
      (fun h => absurd rfl h)
      (fun _ => rfl)
      e he2
    rw [List.nil_append] at hres
    rw [hres]
    congr 1
    rw [(List.perm_insertionSort scoreDescRel _).countP_eq]
    rw [List.countP_map]
    rfl

/-- A sample player for the scoreboard witness. -/
def mkSamplePlayer (id name : String) (score : ℤ) : Player :=
  { id := id, name := name, score := score, streak := 0, rank := none,
    isConnected := true, joinedAt := 0,
    powerups := createInitialPowerupState }

/-- Sample player map with scores 100, 100, 80, 50. -/
def samplePlayers : List (String × Player) :=
  [("a", mkSamplePlayer "a" "A" 100), ("b", mkSamplePlayer "b" "B" 100),
   ("c", mkSamplePlayer "c" "C" 80), ("d", mkSamplePlayer "d" "D" 50)]

/-- The entry produced for player a in the sample scoreboard. -/
def sampleScoreboardEntry : ScoreboardEntry :=
  { playerId := "a", playerName := "A", score := 100, rank := 1,
    streak := 0, lastAnswerCorrect := none, pointsThisRound := none }

/-- Witness for C6: scores 100, 100, 80, 50 receive ranks 1, 1, 3, 4,
and the rank of the concrete top entry matches the counting formula. -/
theorem calculateScoreboard_dense_rank_witness :
    (calculateScoreboard samplePlayers none).map (fun e => e.rank)
      = [1, 1, 3, 4] ∧
    sampleScoreboardEntry.rank
      = 1 + (samplePlayers.map Prod.snd).countP
          (fun p => decide (sampleScoreboardEntry.score < p.score)) :=
  ⟨by decide,
   (calculateScoreboard_dense_rank samplePlayers none).2
     sampleScoreboardEntry (by decide)⟩

/-! ## Phase transitions, rematch and serialization (core/game-state.ts) -/

/-- The exhaustive phase transition table. -/
def isValidPhaseTransition (from_ to_ : GamePhase) : Bool :=
  match from_ with
  | .lobby => to_ = .playing
  | .playing => to_ = .revealing || to_ = .finished
  | .revealing => to_ = .playing || to_ = .finished
  | .finished => to_ = .lobby

/-- The per-player reset object spread of resetForRematch: score 0,
streak 0, rank cleared, power-ups back to the initial state, all other
fields spread through. -/
def resetPlayerForRematch (p : Player) : Player :=
  { p with
    score := 0, streak := 0, rank := none,
    powerups := createInitialPowerupState }

/-- Reset the state for a rematch: keep players, reset their scores,
streaks, ranks and power-ups, clear the round, history and timestamps,
and return to the lobby. -/
def resetForRematch (state : GameState) : GameState :=
  { state with
      phase := .lobby,
      players := state.players.map
        (fun kv => (kv.1, resetPlayerForRematch kv.2)),
      currentQuestion := none,
      questionHistory := [],
      startedAt := none,
      finishedAt := none }

/-- The shape JSON.stringify receives in serializeGameState: the two
Maps are replaced by their entry arrays; everything else is spread
through unchanged. JSON.stringify and JSON.parse themselves are
JavaScript builtins outside this repository and are faithful on
JSON-representable values, so the round trip is modelled at the level
of this serializable value. -/
structure SerializedGameState where
  phase : GamePhase
  roomCode : String
  config : QuizGameConfig
  players : List (String × Player)
  currentQuestion : Option CurrentQuestionState
  questionHistory : List Question
  startedAt : Option ℤ
  finishedAt : Option ℤ
deriving DecidableEq, Repr

/-- serializeGameState: spread the state and convert the players map
and the open round answer map to entry arrays. -/
def serializeGameState (state : GameState) : SerializedGameState :=
  { phase := state.phase, roomCode := state.roomCode,
    config := state.config,
    players := state.players,
    currentQuestion := state.currentQuestion,
    questionHistory := state.questionHistory,
    startedAt := state.startedAt, finishedAt := state.finishedAt }

/-- deserializeGameState: spread the parsed value and rebuild the two
Maps from their entry arrays with the Map constructor. -/
def deserializeGameState (parsed : SerializedGameState) : GameState :=
  { phase := parsed.phase, roomCode := parsed.roomCode,
    config := parsed.config,
    players := jsMapFromList parsed.players,
    currentQuestion := parsed.currentQuestion.map (fun cq =>
      { cq with answers := jsMapFromList cq.answers }),
    questionHistory := parsed.questionHistory,
    startedAt := parsed.startedAt, finishedAt := parsed.finishedAt }

/-! ## Game machine (core/game-machine.ts) -/

structure GameMachineState where
  gameState : GameState
  questions : List Question
  currentQuestionIndex : ℤ
deriving DecidableEq, Repr

/-- GameMachine.transitionTo: change phase only along a valid edge,
report failure otherwise. -/
def transitionTo (state : GameState) (phase : GamePhase) :
    GameState × Bool :=
  if isValidPhaseTransition state.phase phase then
    ({ state with phase := phase }, true)
  else
    (state, false)

/-- GameMachine.startGame. -/
def startGame (m : GameMachineState) (questions : List Question)
    (now : ℤ) : GameMachineState × Bool :=
  if m.gameState.phase ≠ .lobby then (m, false)
  else if questions.length = 0 then (m, false)
  else if m.gameState.players.length = 0 then (m, false)
  else
    let g := { m.gameState with startedAt := some now }
    ({ gameState := (transitionTo g .playing).1,
       questions := questions, currentQuestionIndex := -1 }, true)

/-- GameMachine.nextQuestion. -/
def nextQuestion (m : GameMachineState) (now : ℤ) :
    GameMachineState × Option Question :=
  if m.gameState.phase ≠ .playing ∧ m.gameState.phase ≠ .revealing then
    (m, none)
  else
    let nextIndex := m.currentQuestionIndex + 1
    if nextIndex ≥ (m.questions.length : ℤ) then (m, none)
    else
      let g :=
        if m.gameState.phase = .revealing then
          { m.gameState with phase := .playing }
        else m.gameState
      match m.questions[nextIndex.toNat]? with
      | none => (m, none)
      | some question =>
          let total := m.questions.length
          let cq := createCurrentQuestionState question nextIndex.toNat
            total now
          let g2 := { g with currentQuestion := some cq }
          ({ gameState := g2, questions := m.questions,
             currentQuestionIndex := nextIndex }, some question)

/-- GameMachine.revealAnswer. -/
def revealAnswer (m : GameMachineState) : GameMachineState :=
  if m.gameState.phase ≠ .playing then m
  else
    let g :=
      match m.gameState.currentQuestion with
      | some cq =>
          { m.gameState with
              questionHistory := m.gameState.questionHistory ++ [cq.question] }
      | none => m.gameState
    { m with gameState := (transitionTo g .revealing).1 }

/-- GameMachine.endGame: sets the finish timestamp and the finished
phase directly, without the transition check, and returns the final
scoreboard. -/
def endGame (m : GameMachineState) (now : ℤ) :
    GameMachineState × List ScoreboardEntry :=
  let g := { m.gameState with finishedAt := some now, phase := .finished }
  let scoreboard := calculateScoreboard m.gameState.players
    (m.gameState.currentQuestion.map (fun cq => cq.answers))
  ({ m with gameState := g }, scoreboard)

/-- GameMachine.rematch. -/
def rematch (m : GameMachineState) : GameMachineState :=
  { gameState := resetForRematch m.gameState,
    questions := m.questions, currentQuestionIndex := -1 }

/-! ## Rematch theorem (C9) -/

/-- C9: rematch yields a lobby state with no round, empty history and
cleared timestamps, the question index back at -1, every retained
player still present with the same id, name, connectivity flag and
join time, and every player reset to score 0, streak 0 and the initial
empty power-up state. -/
theorem rematch_resets (m : GameMachineState) :
    (rematch m).gameState.phase = .lobby ∧
    (rematch m).gameState.questionHistory = [] ∧
    (rematch m).gameState.currentQuestion = none ∧
    (rematch m).gameState.startedAt = none ∧
    (rematch m).gameState.finishedAt = none ∧
    (rematch m).currentQuestionIndex = -1 ∧
    ((rematch m).gameState.players.map
        (fun kv => (kv.1, kv.2.name, kv.2.isConnected, kv.2.joinedAt))
      = m.gameState.players.map
        (fun kv => (kv.1, kv.2.name, kv.2.isConnected, kv.2.joinedAt))) ∧
    ((rematch m).gameState.players.length
      = m.gameState.players.length) ∧
    (∀ kv ∈ (rematch m).gameState.players,
      kv.2.score = 0 ∧ kv.2.streak = 0 ∧
      kv.2.powerups
        = { available := [], active := none, used := [] }) := by
  refine ⟨rfl, rfl, rfl, rfl, rfl, rfl, ?_, by
    simp [rematch, resetForRematch], ?_⟩
  · show ((m.gameState.players.map
        (fun kv => (kv.1, resetPlayerForRematch kv.2))).map
        (fun kv => (kv.1, kv.2.name, kv.2.isConnected, kv.2.joinedAt)))
      = _
    rw [List.map_map]
    rfl
  · intro kv hkv
    simp only [rematch, resetForRematch, List.mem_map] at hkv
    obtain ⟨kv0, _, rfl⟩ := hkv
    exact ⟨rfl, rfl, rfl⟩

/-- A minimal game configuration for concrete states. -/
def sampleConfig : QuizGameConfig :=
  { roomCode := some "ROOM",
    scoring := { basePoints := 100, timeBonus := none, streakBonus := none,
                 difficultyMultipliers := none, estimation := none },
    powerups := none, questionTimeLimit := none,
    showAnswerAfterQuestion := none, autoAdvance := none,
    answerMode := none, allowLateAnswers := none,
    autoAdvanceOnAllAnswered := none, shuffleQuestions := none,
    questionsPerGame := none }

/-- Player A with 300 points, a streak and some power-up history. -/
def playerA : Player :=
  { id := "A", name := "Alice", score := 300, streak := 3, rank := some 1,
    isConnected := true, joinedAt := 1,
    powerups := { available := [doublePointsPowerup],
                  active := some shieldPowerup, used := ["extra-time"] } }

/-- Player B with 150 points. -/
def playerB : Player :=
  { id := "B", name := "Bob", score := 150, streak := 0, rank := some 2,
    isConnected := false, joinedAt := 2,
    powerups := createInitialPowerupState }

/-- A finished room holding players A at 300 and B at 150. -/
def finishedRoom : GameMachineState :=
  { gameState :=
      { phase := .finished, roomCode := "ROOM", config := sampleConfig,
        players := [("A", playerA), ("B", playerB)],
        currentQuestion := none, questionHistory := [],
        startedAt := some 10, finishedAt := some 99 },
    questions := [], currentQuestionIndex := 0 }

/-- Witness for C9 on the finished room with players at 300 and 150. -/
theorem rematch_resets_witness :
    (rematch finishedRoom).gameState.phase = .lobby ∧
    (rematch finishedRoom).gameState.questionHistory = [] ∧
    ("A", resetPlayerForRematch playerA).2.score = 0 ∧
    ("A", resetPlayerForRematch playerA).2.streak = 0 ∧
    ("A", resetPlayerForRematch playerA).2.powerups
      = { available := [], active := none, used := [] } :=
  ⟨(rematch_resets finishedRoom).1,
   (rematch_resets finishedRoom).2.1,
   (rematch_resets finishedRoom).2.2.2.2.2.2.2.2
     ("A", resetPlayerForRematch playerA) (by decide)⟩

/-! ## Serialization round trip (C10) -/

lemma jsMapHas_append {α : Type} (a b : List (String × α)) (k : String) :
    jsMapHas (a ++ b) k = (jsMapHas a k || jsMapHas b k) := by
  simp [jsMapHas, List.any_append]

lemma foldl_jsMapSet_append {α : Type} :
    ∀ (l acc : List (String × α)),
      (∀ k ∈ l.map Prod.fst, jsMapHas acc k = false) →
      (l.map Prod.fst).Nodup →
      l.foldl (fun m kv => jsMapSet m kv.1 kv.2) acc = acc ++ l
  | [], acc, _, _ => by simp
  | kv :: l, acc, hdisj, hnd => by
      obtain ⟨k, v⟩ := kv
      simp only [List.foldl_cons]
      have h1 : jsMapHas acc k = false := hdisj k (by simp)
      rw [jsMapSet_of_not_has v h1]
      have hndtail : (l.map Prod.fst).Nodup := by
        simp only [List.map_cons, List.nodup_cons] at hnd
        exact hnd.2
      have hknotin : k ∉ l.map Prod.fst := by
        simp only [List.map_cons, List.nodup_cons] at hnd
        exact hnd.1
      have hdisj2 : ∀ k' ∈ l.map Prod.fst,
          jsMapHas (acc ++ [(k, v)]) k' = false := by
        intro k' hk'
        rw [jsMapHas_append]
        have ha : jsMapHas acc k' = false := hdisj k' (by simp [hk'])
        have hb : jsMapHas [(k, v)] k' = false := by
          have hne : k ≠ k' := fun h => hknotin (h ▸ hk')
          simp [jsMapHas, hne]
        rw [ha, hb]
        rfl
      rw [foldl_jsMapSet_append l (acc ++ [(k, v)]) hdisj2 hndtail]
      simp

lemma jsMapFromList_id {α : Type} (l : List (String × α))
    (h : (l.map Prod.fst).Nodup) : jsMapFromList l = l := by
  rw [jsMapFromList, foldl_jsMapSet_append l [] (by intro k _; rfl) h]
  simp

/-- C10: for a state whose maps are genuine JS Maps (duplicate-free
keys), deserializeGameState inverts serializeGameState exactly: phase,
timestamps, history, configuration, the players map and the open round
answer map (or null) are all restored. The JSON string step itself is a
JavaScript builtin pair outside this repository, faithful on the
JSON-representable values the claim assumes, so the round trip is
settled on the serializable value it produces and consumes. -/
theorem serializeGameState_roundtrip (state : GameState)
    (hplayers : (state.players.map Prod.fst).Nodup)
    (hanswers : ∀ cq, state.currentQuestion = some cq →
      (cq.answers.map Prod.fst).Nodup) :
    deserializeGameState (serializeGameState state) = state := by
  obtain ⟨ph, rc, cfg, pl, cqo, qh, sa, fa⟩ := state
  simp only [serializeGameState, deserializeGameState, GameState.mk.injEq,
    true_and, and_true]
  constructor
  · exact jsMapFromList_id pl hplayers
  · rcases cqo with _ | cq
    · rfl
    · obtain ⟨q2, qi, tq, st2, tr, ans⟩ := cq
      simp only [Option.map_some', CurrentQuestionState.mk.injEq,
        true_and, and_true, Option.some.injEq]
      exact jsMapFromList_id ans (hanswers _ rfl)

/-- A round state with one recorded answer, for the round trip witness. -/
def sampleRound : CurrentQuestionState :=
  { question :=
      { id := "q1", category := "history", difficulty := some .easy,
        text := "When", answerType := .numeric, options := none,
        correctOptionIndex := none, correctText := none,
        acceptedAnswers := none, caseSensitive := none,
        correctNumber := some 1945, lowerBound := some 1900,
        upperBound := some 2000, media := none, timeLimit := none,
        points := none },
    questionIndex := 0, totalQuestions := 1, startedAt := 5,
    timeRemaining := none,
    answers := [("A",
      { playerId := "A", questionId := "q1", answer := Sum.inr 1950,
        timestamp := 9, answeredAt := 4, isCorrect := none,
        pointsAwarded := none, rejected := none })] }

/-- A full game state with two players and an open round. -/
def sampleGameState : GameState :=
  { phase := .playing, roomCode := "ROOM", config := sampleConfig,
    players := [("A", playerA), ("B", playerB)],
    currentQuestion := some sampleRound,
    questionHistory := [], startedAt := some 1, finishedAt := none }

/-- Witness for C10 at the concrete sample state. -/
theorem serializeGameState_roundtrip_witness :
    deserializeGameState (serializeGameState sampleGameState)
      = sampleGameState :=
  serializeGameState_roundtrip sampleGameState (by decide)
    (by
      intro cq h
      simp only [sampleGameState] at h
      injection h with h2
      subst h2
      decide)

/-! ## Message stripping (realtime/messages.ts) -/

/-- The question shape sent to players: every Question field except the
four answer-revealing ones (correctOptionIndex, correctText,
correctNumber, acceptedAnswers), which are absent from this type. -/
structure StrippedQuestion where
  id : String
  category : String
  difficulty : Option Difficulty
  text : String
  answerType : AnswerType
  options : Option (List String)
  caseSensitive : Option Bool
  lowerBound : Option ℚ
  upperBound : Option ℚ
  media : Option QuestionMedia
  timeLimit : Option ℚ
  points : Option ℚ
deriving DecidableEq, Repr

/-- stripAnswerData: destructure the four answer fields away and keep
the rest of the question unchanged. Total over every question value. -/
def stripAnswerData (question : Question) : StrippedQuestion :=
  { id := question.id, category := question.category,
    difficulty := question.difficulty, text := question.text,
    answerType := question.answerType, options := question.options,
    caseSensitive := question.caseSensitive,
    lowerBound := question.lowerBound, upperBound := question.upperBound,
    media := question.media, timeLimit := question.timeLimit,
    points := question.points }

structure QuestionShowPayload where
  question : StrippedQuestion
  questionIndex : ℕ
  totalQuestions : ℕ
  timeLimit : Option ℚ
  startedAt : ℤ
deriving DecidableEq, Repr

structure QuestionShowMessage where
  type : String
  payload : QuestionShowPayload
deriving DecidableEq, Repr

/-- createQuestionShowMessage; Date.now is passed in explicitly. -/
def createQuestionShowMessage (question : Question)
    (questionIndex totalQuestions : ℕ) (timeLimit : Option ℚ)
    (now : ℤ) : QuestionShowMessage :=
  { type := "question:show",
    payload := { question := stripAnswerData question,
                 questionIndex := questionIndex,
                 totalQuestions := totalQuestions,
                 timeLimit := timeLimit, startedAt := now } }

/-- createQuestionReplacedMessage; Date.now is passed in explicitly. -/
def createQuestionReplacedMessage (question : Question)
    (questionIndex totalQuestions : ℕ) (timeLimit : Option ℚ)
    (now : ℤ) : QuestionShowMessage :=
  { type := "question:replaced",
    payload := { question := stripAnswerData question,
                 questionIndex := questionIndex,
                 totalQuestions := totalQuestions,
                 timeLimit := timeLimit, startedAt := now } }

/-- C7: stripAnswerData is total (every Question value is accepted) and
keeps every non-answer field unchanged, while the answer fields
(correctOptionIndex, correctText, correctNumber, acceptedAnswers) are
absent from the StrippedQuestion result type; the question:show and
question:replaced payloads carry exactly the stripped question. -/
theorem stripAnswerData_strips (question : Question)
    (i t : ℕ) (tl : Option ℚ) (now : ℤ) :
    (stripAnswerData question).id = question.id ∧
    (stripAnswerData question).category = question.category ∧
    (stripAnswerData question).difficulty = question.difficulty ∧
    (stripAnswerData question).text = question.text ∧
    (stripAnswerData question).answerType = question.answerType ∧
    (stripAnswerData question).options = question.options ∧
    (stripAnswerData question).caseSensitive = question.caseSensitive ∧
    (stripAnswerData question).lowerBound = question.lowerBound ∧
    (stripAnswerData question).upperBound = question.upperBound ∧
    (stripAnswerData question).media = question.media ∧
    (stripAnswerData question).timeLimit = question.timeLimit ∧
    (stripAnswerData question).points = question.points ∧
    (createQuestionShowMessage question i t tl now).payload.question
      = stripAnswerData question ∧
    (createQuestionShowMessage question i t tl now).type
      = "question:show" ∧
    (createQuestionReplacedMessage question i t tl now).payload.question
      = stripAnswerData question ∧
    (createQuestionReplacedMessage question i t tl now).type
      = "question:replaced" :=
  ⟨rfl, rfl, rfl, rfl, rfl, rfl, rfl, rfl, rfl, rfl, rfl, rfl,
   rfl, rfl, rfl, rfl⟩

/-! ## Phase machine theorems (C1) -/

/-- A freshly created room in the lobby. -/
def lobbyRoom : GameMachineState :=
  { gameState := createInitialGameState "ROOM" sampleConfig,
    questions := [], currentQuestionIndex := -1 }

/-- A room in the playing phase. -/
def playingRoom : GameMachineState :=
  { gameState :=
      { phase := .playing, roomCode := "ROOM", config := sampleConfig,
        players := [("A", playerA)], currentQuestion := none,
        questionHistory := [], startedAt := some 1, finishedAt := none },
    questions := [], currentQuestionIndex := -1 }

/-- C1 counterexample: endGame on a lobby room performs the invalid
edge lobby to finished and mutates the state (finish timestamp set),
and rematch on a playing room performs the invalid edge playing to
lobby; neither is a no-op, so the transition table is not enforced for
endGame and rematch. -/
theorem endGame_rematch_bypass_transition_check :
    isValidPhaseTransition .lobby .finished = false ∧
    lobbyRoom.gameState.phase = .lobby ∧
    (endGame lobbyRoom 1000).1.gameState.phase = .finished ∧
    (endGame lobbyRoom 1000).1.gameState.finishedAt = some 1000 ∧
    isValidPhaseTransition .playing .lobby = false ∧
    playingRoom.gameState.phase = .playing ∧
    (rematch playingRoom).gameState.phase = .lobby := by
  refine ⟨rfl, rfl, rfl, rfl, rfl, rfl, rfl⟩

/-- C1 amended: the guarded operations startGame, nextQuestion and
revealAnswer change the phase only along the edges of the transition
table and are no-ops when their phase guard fails; endGame, however,
sets the phase to finished unconditionally from any phase (including
lobby), and rematch resets to lobby unconditionally from any phase,
both bypassing the transition check. -/
theorem phase_transitions_guarded (m : GameMachineState)
    (qs : List Question) (now : ℤ) :
    ((startGame m qs now).1.gameState.phase ≠ m.gameState.phase →
      isValidPhaseTransition m.gameState.phase
        (startGame m qs now).1.gameState.phase = true) ∧
    (m.gameState.phase ≠ .lobby → (startGame m qs now).1 = m) ∧
    ((nextQuestion m now).1.gameState.phase ≠ m.gameState.phase →
      isValidPhaseTransition m.gameState.phase
        (nextQuestion m now).1.gameState.phase = true) ∧
    (m.gameState.phase ≠ .playing ∧ m.gameState.phase ≠ .revealing →
      (nextQuestion m now).1 = m) ∧
    ((revealAnswer m).gameState.phase ≠ m.gameState.phase →
      isValidPhaseTransition m.gameState.phase
        (revealAnswer m).gameState.phase = true) ∧
    (m.gameState.phase ≠ .playing → revealAnswer m = m) ∧
    ((endGame m now).1.gameState.phase = .finished) ∧
    ((rematch m).gameState.phase = .lobby) := by
  refine ⟨?_, ?_, ?_, ?_, ?_, ?_, rfl, rfl⟩
  · rcases hph : m.gameState.phase
    · simp only [startGame, transitionTo, isValidPhaseTransition, hph]
      split_ifs <;> simp_all
    · simp [startGame, hph]
    · simp [startGame, hph]
    · simp [startGame, hph]
  · intro h
    simp [startGame, h]
  · rcases hph : m.gameState.phase <;>
      rcases hq : m.questions[(m.currentQuestionIndex + 1).toNat]? with _ | q <;>
      simp [nextQuestion, hph, hq, isValidPhaseTransition] <;>
      split_ifs <;> simp_all
  · rintro ⟨h1, h2⟩
    simp [nextQuestion, h1, h2]
  · rcases hph : m.gameState.phase <;>
      rcases hcq : m.gameState.currentQuestion with _ | cq <;>
      simp_all [revealAnswer, transitionTo, isValidPhaseTransition]
  · intro h
    simp [revealAnswer, h]

/-- Witness for the amended C1 on a concrete finished room: the guarded
operations are no-ops there, while endGame and rematch still force
their phases. -/
theorem phase_transitions_guarded_witness :
    (startGame finishedRoom [] 5).1 = finishedRoom ∧
    (nextQuestion finishedRoom 5).1 = finishedRoom ∧
    revealAnswer finishedRoom = finishedRoom ∧
    (endGame finishedRoom 7).1.gameState.phase = .finished ∧
    (rematch finishedRoom).gameState.phase = .lobby :=
  ⟨(phase_transitions_guarded finishedRoom [] 5).2.1 (by decide),
   (phase_transitions_guarded finishedRoom [] 5).2.2.2.1 (by decide),
   (phase_transitions_guarded finishedRoom [] 5).2.2.2.2.2.1 (by decide),
   (phase_transitions_guarded finishedRoom [] 7).2.2.2.2.2.2.1,
   (phase_transitions_guarded finishedRoom [] 7).2.2.2.2.2.2.2⟩
